import Mathlib

/-!
Verification of the document-diff engine of Aseprite
(`src/app/doc_diff.cpp`, function `compare_docs`).

The data model (sprite, frames, tags, palettes, tilesets, layers, cels)
and the external primitives (image equality, palette diff count, color
space near-equality) live in headers outside the compared translation
unit; they are modelled from the specification.  The comparison function
`compare_docs` itself is a direct shallow embedding of the C++ source:
each dimension check is translated in source order, loops whose only
effect is to set a flag once and exit become `List.any` over the scanned
range, and the layer loop (whose `break` interacts with the per-frame
cel comparison) is an explicit structural recursion threading the flag
record.
-/

/-- Modelled from the spec: a rectangle (origin plus size), used for cel
bounds, image bounds and the sprite grid bounds. -/
structure Rect where
  x : Int
  y : Int
  w : Int
  h : Int
deriving DecidableEq

/-- Modelled from the spec: the canvas pixel format enum
(indexed / RGB / grayscale). -/
inductive PixelFormat
  | rgb
  | grayscale
  | indexed
deriving DecidableEq

/-- Modelled from the spec: a pixel buffer with its dimensions. -/
structure Image where
  width : Nat
  height : Nat
  pixels : List Nat
deriving DecidableEq

/-- Modelled from the spec: an image's bounds rectangle (origin at zero). -/
def Image.bounds (i : Image) : Rect :=
  ⟨0, 0, Int.ofNat i.width, Int.ofNat i.height⟩

/-- Modelled from the spec: the external bit-exact image-equality
primitive (`is_same_image` in `doc/primitives.h`): equal bounds and
every pixel matching, i.e. structural equality of the buffer. -/
def is_same_image (a b : Image) : Bool :=
  decide (a = b)

/-- Modelled from the spec: an opaque color-profile descriptor. -/
structure ColorSpace where
  descriptor : Nat
deriving DecidableEq

/-- Modelled from the spec: approximate equality of color profiles; on
the opaque descriptor it is equality (in particular it is reflexive). -/
def ColorSpace.nearlyEqual (a b : ColorSpace) : Bool :=
  decide (a = b)

/-- Modelled from the spec: a tag — a named range of frames with
animation playback metadata. -/
structure Tag where
  fromFrame : Nat
  toFrame : Nat
  name : String
  color : Nat
  aniDir : Nat
  repeats : Nat
deriving DecidableEq

/-- Modelled from the spec: a palette, an ordered list of color entries. -/
structure Palette where
  colors : List Nat
deriving DecidableEq

/-- Modelled from the spec: the external palette content-difference
primitive (`Palette::countDiff`): the number of differing entries, zero
meaning identical; entries present on one side only count as differing. -/
def Palette.countDiff (a b : Palette) : Nat :=
  ((a.colors.zip b.colors).filter (fun p => decide (p.1 ≠ p.2))).length
    + (max a.colors.length b.colors.length - min a.colors.length b.colors.length)

/-- Modelled from the spec: a tileset — a fixed tile size and an ordered
list of tile images. -/
structure Tileset where
  tileWidth : Nat
  tileHeight : Nat
  tiles : List Image
deriving DecidableEq

/-- Modelled from the spec: a cel — frame index, bounding rectangle,
opacity, and an optional pixel image. -/
structure Cel where
  frame : Nat
  bounds : Rect
  opacity : Nat
  image : Option Image
deriving DecidableEq

/-- Modelled from the spec: the layer type tag (image / group / tilemap). -/
inductive LayerType
  | image
  | group
  | tilemap
deriving DecidableEq

/-- Modelled from the spec: the persistent subset of layer flag bits
(`LayerFlags::PersistentFlagsMask`, the low 16 bits). -/
def persistentFlagsMask : Nat := 0xffff

/-- Modelled from the spec: a flattened layer — type tag, name, flag
bits, the type-specific opacity (image layers) and tileset index
(tilemap layers), and the per-frame optional cel lookup. -/
structure Layer where
  type : LayerType
  name : String
  flags : Nat
  opacity : Nat
  tilesetIndex : Nat
  cels : Nat → Option Cel

/-- Modelled from the spec: the image-layer type test. -/
def Layer.isImage (l : Layer) : Bool :=
  decide (l.type = LayerType.image)

/-- Modelled from the spec: the tilemap-layer type test. -/
def Layer.isTilemap (l : Layer) : Bool :=
  decide (l.type = LayerType.tilemap)

/-- Modelled from the spec: a sprite snapshot, carrying everything the
comparator reads through accessors: canvas spec, frame durations
(`totalFrames` is the list length), tags, palettes, tilesets, the
flattened layer list, the color profile and the grid bounds. -/
structure Sprite where
  width : Nat
  height : Nat
  pixelFormat : PixelFormat
  frameDurations : List Nat
  tags : List Tag
  palettes : List Palette
  tilesets : List Tileset
  layers : List Layer
  colorSpace : ColorSpace
  gridBounds : Rect

/-- Modelled from the spec: total number of frames of the sprite. -/
def Sprite.totalFrames (s : Sprite) : Nat :=
  s.frameDurations.length

/-- Modelled from the spec: duration of frame `f`. -/
def Sprite.frameDuration (s : Sprite) (f : Nat) : Nat :=
  s.frameDurations.getD f 0

/-- Modelled from the spec: a document snapshot wrapping its sprite. -/
structure Doc where
  sprite : Sprite

/-- The difference-flag record `DocDiff` (`app/doc_diff.h`); modelled
from the spec: twelve independent boolean flags, all false in a freshly
constructed record. -/
structure DocDiff where
  anything : Bool
  canvas : Bool
  totalFrames : Bool
  frameDuration : Bool
  tags : Bool
  palettes : Bool
  tilesets : Bool
  layers : Bool
  cels : Bool
  images : Bool
  colorProfiles : Bool
  gridBounds : Bool
deriving DecidableEq

/-- A freshly constructed `DocDiff`: every flag false. -/
def DocDiff.init : DocDiff :=
  ⟨false, false, false, false, false, false, false, false, false, false, false, false⟩

/-- Embeds the sprite-spec comparison of `compare_docs`
(doc_diff.cpp:37-41): width, height or pixel format differing sets
`canvas`. -/
def compareCanvas (a b : Doc) (d : DocDiff) : DocDiff :=
  if a.sprite.width ≠ b.sprite.width ∨
     a.sprite.height ≠ b.sprite.height ∨
     a.sprite.pixelFormat ≠ b.sprite.pixelFormat then
    { d with anything := true, canvas := true }
  else d

/-- Embeds the frame comparison of `compare_docs` (doc_diff.cpp:44-54):
differing total frame counts set `totalFrames`; otherwise the duration
scan sets `frameDuration` on the first differing frame and breaks (the
loop's only effect is setting the flag once, so it is `List.any`). -/
def compareFrames (a b : Doc) (d : DocDiff) : DocDiff :=
  if a.sprite.totalFrames ≠ b.sprite.totalFrames then
    { d with anything := true, totalFrames := true }
  else if (List.range a.sprite.totalFrames).any
      (fun f => decide (a.sprite.frameDuration f ≠ b.sprite.frameDuration f)) then
    { d with anything := true, frameDuration := true }
  else d

/-- Embeds the per-position tag comparison of `compare_docs`
(doc_diff.cpp:63-74): any of the six tag fields differing. -/
def tagPairDiff (x y : Tag) : Bool :=
  decide (x.fromFrame ≠ y.fromFrame) || decide (x.toFrame ≠ y.toFrame) ||
  decide (x.name ≠ y.name) || decide (x.color ≠ y.color) ||
  decide (x.aniDir ≠ y.aniDir) || decide (x.repeats ≠ y.repeats)

/-- Embeds the tag comparison of `compare_docs` (doc_diff.cpp:57-75):
differing tag counts set `tags`; otherwise tags are compared pairwise
(the loop runs while both iterators are valid, i.e. over the zip). -/
def compareTags (a b : Doc) (d : DocDiff) : DocDiff :=
  if a.sprite.tags.length ≠ b.sprite.tags.length then
    { d with anything := true, tags := true }
  else if (a.sprite.tags.zip b.sprite.tags).any (fun p => tagPairDiff p.1 p.2) then
    { d with anything := true, tags := true }
  else d

/-- Embeds the palette comparison of `compare_docs` (doc_diff.cpp:78-93):
only when the palette list lengths differ are palettes compared pairwise
up to the shorter list (the zip), flagging `palettes` on the first pair
with a nonzero diff count and breaking. -/
def comparePalettes (a b : Doc) (d : DocDiff) : DocDiff :=
  if a.sprite.palettes.length ≠ b.sprite.palettes.length then
    if (a.sprite.palettes.zip b.sprite.palettes).any
        (fun p => decide (p.1.countDiff p.2 ≠ 0)) then
      { d with anything := true, palettes := true }
    else d
  else d

/-- Embeds the tileset loop of `compare_docs` (doc_diff.cpp:102-121),
returning whether `tilesets` gets flagged: per pair, a tile-size or
tile-count mismatch exits everything (the `break`); otherwise the first
tile image pair that is not pixel-identical exits everything (the
`goto done`); otherwise the next pair is examined. -/
def tilesetsLoop : List Tileset → List Tileset → Bool
  | x :: xs, y :: ys =>
    if x.tileWidth ≠ y.tileWidth ∨ x.tileHeight ≠ y.tileHeight ∨
       x.tiles.length ≠ y.tiles.length then
      true
    else if (x.tiles.zip y.tiles).any (fun p => !is_same_image p.1 p.2) then
      true
    else tilesetsLoop xs ys
  | _, _ => false

/-- Embeds the tileset comparison of `compare_docs` (doc_diff.cpp:96-122):
differing tileset counts set `tilesets` (a sprite without tilesets has
size zero, i.e. the empty list); otherwise the loop runs. -/
def compareTilesets (a b : Doc) (d : DocDiff) : DocDiff :=
  if a.sprite.tilesets.length ≠ b.sprite.tilesets.length then
    { d with anything := true, tilesets := true }
  else if tilesetsLoop a.sprite.tilesets b.sprite.tilesets then
    { d with anything := true, tilesets := true }
  else d

/-- Embeds the per-position layer-field comparison of `compare_docs`
(doc_diff.cpp:138-145): type tag, name, persistent flag bits, image
opacity (both image layers) or tileset index (both tilemap layers)
differing. -/
def layerPairDiff (x y : Layer) : Bool :=
  decide (x.type ≠ y.type) || decide (x.name ≠ y.name) ||
  decide (x.flags.land persistentFlagsMask ≠ y.flags.land persistentFlagsMask) ||
  (x.isImage && y.isImage && decide (x.opacity ≠ y.opacity)) ||
  (x.isTilemap && y.isTilemap && decide (x.tilesetIndex ≠ y.tilesetIndex))

/-- Embeds the per-frame cel/image comparison body of `compare_docs`
(doc_diff.cpp:155-172): a cel on exactly one side sets `cels`; two cels
set `cels` when frame index, bounds or opacity are pairwise EQUAL (the
source condition uses `==` joined by `||`); two images set `images` when
bounds differ or pixels differ, and an image on exactly one side sets
`images`. -/
def compareCelPair (aCel bCel : Option Cel) (d : DocDiff) : DocDiff :=
  match aCel, bCel with
  | none, none => d
  | some _, none => { d with anything := true, cels := true }
  | none, some _ => { d with anything := true, cels := true }
  | some ac, some bc =>
    let d1 :=
      if ac.frame = bc.frame ∨ ac.bounds = bc.bounds ∨ ac.opacity = bc.opacity then
        { d with anything := true, cels := true }
      else d
    match ac.image, bc.image with
    | some ai, some bi =>
      if ai.bounds ≠ bi.bounds ∨ is_same_image ai bi = false then
        { d1 with anything := true, images := true }
      else d1
    | none, none => d1
    | _, _ => { d1 with anything := true, images := true }

/-- Embeds the per-layer-pair cel loop of `compare_docs`
(doc_diff.cpp:151-173): frame indices 0 up to `n` (the loop bound is
the FIRST document's `totalFrames`, supplied by the caller), no break. -/
def compareCels (x y : Layer) (n : Nat) (d : DocDiff) : DocDiff :=
  (List.range n).foldl (fun d f => compareCelPair (x.cels f) (y.cels f) d) d

/-- Embeds the layer loop of `compare_docs` (doc_diff.cpp:134-175):
on the first layer pair whose fields differ, set `layers` and break
(nothing further is examined); otherwise, only when the `totalFrames`
flag is already set, run the per-frame cel comparison for this pair,
then continue with the next pair. -/
def compareLayersLoop (n : Nat) : List Layer → List Layer → DocDiff → DocDiff
  | x :: xs, y :: ys, d =>
    if layerPairDiff x y then
      { d with anything := true, layers := true }
    else
      compareLayersLoop n xs ys
        (if d.totalFrames then compareCels x y n d else d)
  | _, _, d => d

/-- Embeds the layer comparison of `compare_docs` (doc_diff.cpp:125-176):
differing flattened layer counts set `layers` and skip the loop;
otherwise the loop runs with the cel-loop bound read from document `a`
(`a->sprite()->totalFrames()`, doc_diff.cpp:151). -/
def compareLayers (a b : Doc) (d : DocDiff) : DocDiff :=
  if a.sprite.layers.length ≠ b.sprite.layers.length then
    { d with anything := true, layers := true }
  else
    compareLayersLoop a.sprite.totalFrames a.sprite.layers b.sprite.layers d

/-- Embeds the color-space comparison of `compare_docs`
(doc_diff.cpp:179-181). -/
def compareColorSpaces (a b : Doc) (d : DocDiff) : DocDiff :=
  if !(a.sprite.colorSpace.nearlyEqual b.sprite.colorSpace) then
    { d with anything := true, colorProfiles := true }
  else d

/-- Embeds the grid-bounds comparison of `compare_docs`
(doc_diff.cpp:184-186). -/
def compareGridBounds (a b : Doc) (d : DocDiff) : DocDiff :=
  if a.sprite.gridBounds ≠ b.sprite.gridBounds then
    { d with anything := true, gridBounds := true }
  else d

/-- Embeds `compare_docs` (doc_diff.cpp:28-189): the fixed ordered
battery of dimension checks threading a freshly constructed flag
record. -/
def compare_docs (a b : Doc) : DocDiff :=
  compareGridBounds a b (compareColorSpaces a b (compareLayers a b
    (compareTilesets a b (comparePalettes a b (compareTags a b
      (compareFrames a b (compareCanvas a b DocDiff.init)))))))

/-! ## Indicator functions

For the proofs, each dimension check is characterized by a boolean
indicator computed from the two documents alone; the dimension function
is then shown to OR the indicator into its flag fields. -/

/-- Indicator: the canvas dimension fires. -/
def canvasB (a b : Doc) : Bool :=
  decide (a.sprite.width ≠ b.sprite.width ∨
    a.sprite.height ≠ b.sprite.height ∨
    a.sprite.pixelFormat ≠ b.sprite.pixelFormat)

/-- Indicator: the total-frame-count check fires. -/
def totalFramesB (a b : Doc) : Bool :=
  decide (a.sprite.totalFrames ≠ b.sprite.totalFrames)

/-- Indicator: the frame-duration scan fires (only run when the counts
are equal). -/
def frameDurationB (a b : Doc) : Bool :=
  !totalFramesB a b &&
    (List.range a.sprite.totalFrames).any
      (fun f => decide (a.sprite.frameDuration f ≠ b.sprite.frameDuration f))

/-- Indicator: the tag dimension fires. -/
def tagsB (a b : Doc) : Bool :=
  if a.sprite.tags.length ≠ b.sprite.tags.length then true
  else (a.sprite.tags.zip b.sprite.tags).any (fun p => tagPairDiff p.1 p.2)

/-- Indicator: the palette dimension fires (only possible when the
palette list lengths differ). -/
def palettesB (a b : Doc) : Bool :=
  if a.sprite.palettes.length ≠ b.sprite.palettes.length then
    (a.sprite.palettes.zip b.sprite.palettes).any
      (fun p => decide (p.1.countDiff p.2 ≠ 0))
  else false

/-- Per-pair tileset mismatch: tile size or tile count differing, or
some tile image pair not pixel-identical. -/
def tilesetPairDiff (x y : Tileset) : Bool :=
  decide (x.tileWidth ≠ y.tileWidth ∨ x.tileHeight ≠ y.tileHeight ∨
    x.tiles.length ≠ y.tiles.length) ||
  (x.tiles.zip y.tiles).any (fun p => !is_same_image p.1 p.2)

/-- Indicator: the tileset dimension fires. -/
def tilesetsB (a b : Doc) : Bool :=
  if a.sprite.tilesets.length ≠ b.sprite.tilesets.length then true
  else tilesetsLoop a.sprite.tilesets b.sprite.tilesets

/-- Indicator: the layer dimension fires. -/
def layersB (a b : Doc) : Bool :=
  if a.sprite.layers.length ≠ b.sprite.layers.length then true
  else (a.sprite.layers.zip b.sprite.layers).any (fun p => layerPairDiff p.1 p.2)

/-- The layer pairs whose cels the layer loop can reach: none when the
layer counts differ, otherwise the pairs strictly before the first
field-differing pair (the `break`). -/
def celScanPairs (a b : Doc) : List (Layer × Layer) :=
  if a.sprite.layers.length ≠ b.sprite.layers.length then []
  else (a.sprite.layers.zip b.sprite.layers).takeWhile
    (fun p => !layerPairDiff p.1 p.2)

/-- Per-frame condition setting the `cels` flag: a cel on exactly one
side, or two cels with frame, bounds or opacity pairwise equal. -/
def celsCond : Option Cel → Option Cel → Bool
  | none, none => false
  | some _, none => true
  | none, some _ => true
  | some ac, some bc =>
    decide (ac.frame = bc.frame ∨ ac.bounds = bc.bounds ∨ ac.opacity = bc.opacity)

/-- Per-frame condition setting the `images` flag: both cels present
and their images differ (one-sided image, or differing bounds or
pixels). -/
def imagesCond : Option Cel → Option Cel → Bool
  | some ac, some bc =>
    match ac.image, bc.image with
    | some ai, some bi =>
      decide (ai.bounds ≠ bi.bounds) || !is_same_image ai bi
    | none, none => false
    | _, _ => true
  | _, _ => false

/-- Indicator: the `cels` flag fires, given the value `tf` of the
`totalFrames` flag when the layer loop starts. -/
def celsB (a b : Doc) (tf : Bool) : Bool :=
  tf && (celScanPairs a b).any (fun p =>
    (List.range a.sprite.totalFrames).any
      (fun f => celsCond (p.1.cels f) (p.2.cels f)))

/-- Indicator: the `images` flag fires, given the value `tf` of the
`totalFrames` flag when the layer loop starts. -/
def imagesB (a b : Doc) (tf : Bool) : Bool :=
  tf && (celScanPairs a b).any (fun p =>
    (List.range a.sprite.totalFrames).any
      (fun f => imagesCond (p.1.cels f) (p.2.cels f)))

/-- Indicator: the color-profile dimension fires. -/
def colorProfilesB (a b : Doc) : Bool :=
  !(a.sprite.colorSpace.nearlyEqual b.sprite.colorSpace)

/-- Indicator: the grid-bounds dimension fires. -/
def gridBoundsB (a b : Doc) : Bool :=
  decide (a.sprite.gridBounds ≠ b.sprite.gridBounds)

/-! ## Normal forms of the dimension checks -/

theorem compareCanvas_eq (a b : Doc) (d : DocDiff) :
    compareCanvas a b d =
      { d with anything := d.anything || canvasB a b,
               canvas := d.canvas || canvasB a b } := by
  by_cases h : a.sprite.width ≠ b.sprite.width ∨
      a.sprite.height ≠ b.sprite.height ∨
      a.sprite.pixelFormat ≠ b.sprite.pixelFormat <;>
    simp [compareCanvas, canvasB, h]

theorem compareFrames_eq (a b : Doc) (d : DocDiff) :
    compareFrames a b d =
      { d with anything := d.anything || totalFramesB a b || frameDurationB a b,
               totalFrames := d.totalFrames || totalFramesB a b,
               frameDuration := d.frameDuration || frameDurationB a b } := by
  unfold compareFrames frameDurationB totalFramesB
  by_cases h : a.sprite.totalFrames ≠ b.sprite.totalFrames
  · simp [h]
  · cases h2 : (List.range a.sprite.totalFrames).any
        (fun f => decide (a.sprite.frameDuration f ≠ b.sprite.frameDuration f)) <;>
      simp [h, h2]

theorem compareTags_eq (a b : Doc) (d : DocDiff) :
    compareTags a b d =
      { d with anything := d.anything || tagsB a b,
               tags := d.tags || tagsB a b } := by
  by_cases h : a.sprite.tags.length ≠ b.sprite.tags.length
  · simp [compareTags, tagsB, h]
  · by_cases h2 : (a.sprite.tags.zip b.sprite.tags).any
        (fun p => tagPairDiff p.1 p.2) = true <;>
      simp [compareTags, tagsB, h, h2]

theorem comparePalettes_eq (a b : Doc) (d : DocDiff) :
    comparePalettes a b d =
      { d with anything := d.anything || palettesB a b,
               palettes := d.palettes || palettesB a b } := by
  unfold comparePalettes palettesB
  by_cases h : a.sprite.palettes.length ≠ b.sprite.palettes.length
  · cases h2 : (a.sprite.palettes.zip b.sprite.palettes).any
        (fun p => decide (p.1.countDiff p.2 ≠ 0)) <;>
      simp [h, h2]
  · simp [h]

theorem compareTilesets_eq (a b : Doc) (d : DocDiff) :
    compareTilesets a b d =
      { d with anything := d.anything || tilesetsB a b,
               tilesets := d.tilesets || tilesetsB a b } := by
  by_cases h : a.sprite.tilesets.length ≠ b.sprite.tilesets.length
  · simp [compareTilesets, tilesetsB, h]
  · by_cases h2 : tilesetsLoop a.sprite.tilesets b.sprite.tilesets = true <;>
      simp [compareTilesets, tilesetsB, h, h2]

theorem compareColorSpaces_eq (a b : Doc) (d : DocDiff) :
    compareColorSpaces a b d =
      { d with anything := d.anything || colorProfilesB a b,
               colorProfiles := d.colorProfiles || colorProfilesB a b } := by
  by_cases h : a.sprite.colorSpace.nearlyEqual b.sprite.colorSpace = true <;>
    simp [compareColorSpaces, colorProfilesB, h]

theorem compareGridBounds_eq (a b : Doc) (d : DocDiff) :
    compareGridBounds a b d =
      { d with anything := d.anything || gridBoundsB a b,
               gridBounds := d.gridBounds || gridBoundsB a b } := by
  by_cases h : a.sprite.gridBounds ≠ b.sprite.gridBounds <;>
    simp [compareGridBounds, gridBoundsB, h]

theorem compareCelPair_eq (oa ob : Option Cel) (d : DocDiff) :
    compareCelPair oa ob d =
      { d with anything := d.anything || celsCond oa ob || imagesCond oa ob,
               cels := d.cels || celsCond oa ob,
               images := d.images || imagesCond oa ob } := by
  cases oa with
  | none => cases ob <;> simp [compareCelPair, celsCond, imagesCond]
  | some ac =>
    cases ob with
    | none => simp [compareCelPair, celsCond, imagesCond]
    | some bc =>
      by_cases hc : ac.frame = bc.frame ∨ ac.bounds = bc.bounds ∨ ac.opacity = bc.opacity
      · cases hai : ac.image with
        | none =>
          cases hbi : bc.image <;> simp [compareCelPair, celsCond, imagesCond, hc, hai, hbi]
        | some ai =>
          cases hbi : bc.image with
          | none => simp [compareCelPair, celsCond, imagesCond, hc, hai, hbi]
          | some bi =>
            by_cases h1 : ai.bounds = bi.bounds <;>
              by_cases h2 : is_same_image ai bi = true <;>
                simp [compareCelPair, celsCond, imagesCond, hc, hai, hbi, h1, h2]
      · cases hai : ac.image with
        | none =>
          cases hbi : bc.image <;> simp [compareCelPair, celsCond, imagesCond, hc, hai, hbi]
        | some ai =>
          cases hbi : bc.image with
          | none => simp [compareCelPair, celsCond, imagesCond, hc, hai, hbi]
          | some bi =>
            by_cases h1 : ai.bounds = bi.bounds <;>
              by_cases h2 : is_same_image ai bi = true <;>
                simp [compareCelPair, celsCond, imagesCond, hc, hai, hbi, h1, h2]

theorem foldl_compareCelPair (fa fb : Nat → Option Cel) (l : List Nat) (d : DocDiff) :
    l.foldl (fun d f => compareCelPair (fa f) (fb f) d) d =
      { d with
        anything := d.anything || l.any (fun f => celsCond (fa f) (fb f))
          || l.any (fun f => imagesCond (fa f) (fb f)),
        cels := d.cels || l.any (fun f => celsCond (fa f) (fb f)),
        images := d.images || l.any (fun f => imagesCond (fa f) (fb f)) } := by
  induction l generalizing d with
  | nil => simp
  | cons x xs ih =>
    rw [List.foldl_cons, compareCelPair_eq, ih]
    simp [List.any_cons, Bool.or_assoc, Bool.or_comm, Bool.or_left_comm]

theorem compareCels_eq (x y : Layer) (n : Nat) (d : DocDiff) :
    compareCels x y n d =
      { d with
        anything := d.anything
          || (List.range n).any (fun f => celsCond (x.cels f) (y.cels f))
          || (List.range n).any (fun f => imagesCond (x.cels f) (y.cels f)),
        cels := d.cels || (List.range n).any (fun f => celsCond (x.cels f) (y.cels f)),
        images := d.images || (List.range n).any (fun f => imagesCond (x.cels f) (y.cels f)) } :=
  foldl_compareCelPair x.cels y.cels (List.range n) d

/-- Layer-loop indicator: some examined layer pair has differing fields. -/
def loopLayersB (xs ys : List Layer) : Bool :=
  (xs.zip ys).any (fun p => layerPairDiff p.1 p.2)

/-- Layer-loop indicator: among the pairs before the first differing one,
some frame below `n` satisfies the cel condition. -/
def loopCelsB (n : Nat) (xs ys : List Layer) : Bool :=
  ((xs.zip ys).takeWhile (fun p => !layerPairDiff p.1 p.2)).any
    (fun p => (List.range n).any (fun f => celsCond (p.1.cels f) (p.2.cels f)))

/-- Layer-loop indicator: among the pairs before the first differing one,
some frame below `n` satisfies the image condition. -/
def loopImagesB (n : Nat) (xs ys : List Layer) : Bool :=
  ((xs.zip ys).takeWhile (fun p => !layerPairDiff p.1 p.2)).any
    (fun p => (List.range n).any (fun f => imagesCond (p.1.cels f) (p.2.cels f)))

theorem compareLayersLoop_eq (n : Nat) (xs ys : List Layer) (d : DocDiff) :
    compareLayersLoop n xs ys d =
      { d with
        anything := d.anything || loopLayersB xs ys
          || (d.totalFrames && loopCelsB n xs ys)
          || (d.totalFrames && loopImagesB n xs ys),
        layers := d.layers || loopLayersB xs ys,
        cels := d.cels || (d.totalFrames && loopCelsB n xs ys),
        images := d.images || (d.totalFrames && loopImagesB n xs ys) } := by
  induction xs generalizing ys d with
  | nil => cases ys <;> simp [compareLayersLoop, loopLayersB, loopCelsB, loopImagesB]
  | cons x xs ih =>
    cases ys with
    | nil => simp [compareLayersLoop, loopLayersB, loopCelsB, loopImagesB]
    | cons y ys =>
      cases hp : layerPairDiff x y
      · cases htf : d.totalFrames
        · simp [compareLayersLoop, hp, htf, ih, loopLayersB, loopCelsB, loopImagesB]
        · simp only [compareLayersLoop, hp, htf, Bool.false_eq_true, if_false, if_true,
            compareCels_eq, ih, loopLayersB, loopCelsB, loopImagesB,
            List.zip_cons_cons, List.takeWhile_cons, List.any_cons, Bool.not_false,
            Bool.true_and]
          simp [Bool.or_assoc, Bool.or_comm, Bool.or_left_comm, hp]
      · simp [compareLayersLoop, hp, loopLayersB, loopCelsB, loopImagesB]

theorem compareLayers_eq (a b : Doc) (d : DocDiff) :
    compareLayers a b d =
      { d with
        anything := d.anything || layersB a b || celsB a b d.totalFrames
          || imagesB a b d.totalFrames,
        layers := d.layers || layersB a b,
        cels := d.cels || celsB a b d.totalFrames,
        images := d.images || imagesB a b d.totalFrames } := by
  by_cases h : a.sprite.layers.length ≠ b.sprite.layers.length
  · simp [compareLayers, layersB, celsB, imagesB, celScanPairs, h]
  · rw [compareLayers, if_neg h, compareLayersLoop_eq]
    simp [layersB, celsB, imagesB, celScanPairs, loopLayersB, loopCelsB, loopImagesB, h]

theorem compare_docs_eq (a b : Doc) :
    compare_docs a b =
      { anything := canvasB a b || totalFramesB a b || frameDurationB a b || tagsB a b ||
          palettesB a b || tilesetsB a b || layersB a b || celsB a b (totalFramesB a b) ||
          imagesB a b (totalFramesB a b) || colorProfilesB a b || gridBoundsB a b,
        canvas := canvasB a b,
        totalFrames := totalFramesB a b,
        frameDuration := frameDurationB a b,
        tags := tagsB a b,
        palettes := palettesB a b,
        tilesets := tilesetsB a b,
        layers := layersB a b,
        cels := celsB a b (totalFramesB a b),
        images := imagesB a b (totalFramesB a b),
        colorProfiles := colorProfilesB a b,
        gridBounds := gridBoundsB a b } := by
  unfold compare_docs
  rw [compareCanvas_eq, compareFrames_eq, compareTags_eq, comparePalettes_eq,
      compareTilesets_eq, compareLayers_eq, compareColorSpaces_eq, compareGridBounds_eq]
  simp [DocDiff.init, Bool.or_assoc]

/-! ## Field projections of the comparison result -/

theorem compare_docs_anything (a b : Doc) :
    (compare_docs a b).anything =
      (canvasB a b || totalFramesB a b || frameDurationB a b || tagsB a b ||
        palettesB a b || tilesetsB a b || layersB a b || celsB a b (totalFramesB a b) ||
        imagesB a b (totalFramesB a b) || colorProfilesB a b || gridBoundsB a b) := by
  rw [compare_docs_eq]

theorem compare_docs_canvas (a b : Doc) :
    (compare_docs a b).canvas = canvasB a b := by
  rw [compare_docs_eq]

theorem compare_docs_totalFrames (a b : Doc) :
    (compare_docs a b).totalFrames = totalFramesB a b := by
  rw [compare_docs_eq]

theorem compare_docs_frameDuration (a b : Doc) :
    (compare_docs a b).frameDuration = frameDurationB a b := by
  rw [compare_docs_eq]

theorem compare_docs_tags (a b : Doc) :
    (compare_docs a b).tags = tagsB a b := by
  rw [compare_docs_eq]

theorem compare_docs_palettes (a b : Doc) :
    (compare_docs a b).palettes = palettesB a b := by
  rw [compare_docs_eq]

theorem compare_docs_tilesets (a b : Doc) :
    (compare_docs a b).tilesets = tilesetsB a b := by
  rw [compare_docs_eq]

theorem compare_docs_layers (a b : Doc) :
    (compare_docs a b).layers = layersB a b := by
  rw [compare_docs_eq]

theorem compare_docs_cels (a b : Doc) :
    (compare_docs a b).cels = celsB a b (totalFramesB a b) := by
  rw [compare_docs_eq]

theorem compare_docs_images (a b : Doc) :
    (compare_docs a b).images = imagesB a b (totalFramesB a b) := by
  rw [compare_docs_eq]

theorem compare_docs_colorProfiles (a b : Doc) :
    (compare_docs a b).colorProfiles = colorProfilesB a b := by
  rw [compare_docs_eq]

theorem compare_docs_gridBounds (a b : Doc) :
    (compare_docs a b).gridBounds = gridBoundsB a b := by
  rw [compare_docs_eq]

/-! ## Self-comparison helper lemmas -/

theorem any_zip_self_eq_false {α : Type} (f : α × α → Bool)
    (h : ∀ x, f (x, x) = false) (l : List α) : (l.zip l).any f = false := by
  induction l with
  | nil => rfl
  | cons x xs ih => simp [List.zip_cons_cons, List.any_cons, h, ih]

theorem tagPairDiff_self (x : Tag) : tagPairDiff x x = false := by
  simp [tagPairDiff]

theorem layerPairDiff_self (x : Layer) : layerPairDiff x x = false := by
  simp [layerPairDiff]

theorem is_same_image_self (x : Image) : is_same_image x x = true := by
  simp [is_same_image]

theorem tilesetsLoop_self (l : List Tileset) : tilesetsLoop l l = false := by
  induction l with
  | nil => rfl
  | cons x xs ih =>
    have h := any_zip_self_eq_false (fun p : Image × Image => !is_same_image p.1 p.2)
      (fun t => by simp [is_same_image]) x.tiles
    simp [tilesetsLoop, ih, h]

/-! ## Concrete example documents used by the witnesses -/

/-- A plain one-layer example layer with no cels. -/
def exLayerPlain : Layer :=
  { type := LayerType.image, name := "bg", flags := 1, opacity := 255,
    tilesetIndex := 0, cels := fun _ => none }

/-- A minimal base sprite shared by the example documents. -/
def exSpriteBase : Sprite :=
  { width := 8, height := 8, pixelFormat := PixelFormat.rgb,
    frameDurations := [100], tags := [], palettes := [], tilesets := [],
    layers := [exLayerPlain], colorSpace := ⟨0⟩, gridBounds := ⟨0, 0, 16, 16⟩ }

/-! ## The claims -/

/-- C1: for every pair of document snapshots, the `DiffResult` returned
by `compare_docs` has `anything` true if and only if at least one of the
other flags (canvas, totalFrames, frameDuration, tags, palettes,
tilesets, layers, cels, images, colorProfiles, gridBounds) is true. -/
theorem anything_iff_some_other_flag (a b : Doc) :
    (compare_docs a b).anything = true ↔
      ((compare_docs a b).canvas = true ∨ (compare_docs a b).totalFrames = true ∨
       (compare_docs a b).frameDuration = true ∨ (compare_docs a b).tags = true ∨
       (compare_docs a b).palettes = true ∨ (compare_docs a b).tilesets = true ∨
       (compare_docs a b).layers = true ∨ (compare_docs a b).cels = true ∨
       (compare_docs a b).images = true ∨ (compare_docs a b).colorProfiles = true ∨
       (compare_docs a b).gridBounds = true) := by
  rw [compare_docs_eq]
  simp [Bool.or_eq_true, or_assoc]

/-- C2: a document compared against an identical copy of itself yields a
`DiffResult` in which every flag, including `anything`, is false. -/
theorem compare_docs_self_all_false (a : Doc) :
    compare_docs a a = DocDiff.init := by
  rw [compare_docs_eq]
  have htg : tagsB a a = false := by
    have h := any_zip_self_eq_false (fun p : Tag × Tag => tagPairDiff p.1 p.2)
      (fun x => tagPairDiff_self x) a.sprite.tags
    simp [tagsB, h]
  have hts : tilesetsB a a = false := by
    simp [tilesetsB, tilesetsLoop_self]
  have hl : layersB a a = false := by
    have h := any_zip_self_eq_false (fun p : Layer × Layer => layerPairDiff p.1 p.2)
      (fun x => layerPairDiff_self x) a.sprite.layers
    simp [layersB, h]
  simp [canvasB, totalFramesB, frameDurationB, palettesB, colorProfilesB,
    gridBoundsB, celsB, imagesB, ColorSpace.nearlyEqual, htg, hts, hl, DocDiff.init]

/-- C3: whenever the two documents' palette lists have equal length,
`compare_docs` never sets the `palettes` flag, regardless of how the
palette colors differ. -/
theorem equal_palette_lengths_never_flag (a b : Doc)
    (h : a.sprite.palettes.length = b.sprite.palettes.length) :
    (compare_docs a b).palettes = false := by
  rw [compare_docs_palettes]
  simp [palettesB, h]

/-- Example document for C3: one palette with colors 1, 2. -/
def exDocC3a : Doc :=
  ⟨{ exSpriteBase with palettes := [⟨[1, 2]⟩] }⟩

/-- Example document for C3: one palette with colors 3, 4 — same palette
list length as `exDocC3a`, entirely different colors. -/
def exDocC3b : Doc :=
  ⟨{ exSpriteBase with palettes := [⟨[3, 4]⟩] }⟩

/-- Witness for C3 at concrete documents with equal-length palette lists
whose colors all differ. -/
theorem equal_palette_lengths_never_flag_witness :
    exDocC3a.sprite.palettes.length = exDocC3b.sprite.palettes.length ∧
    (compare_docs exDocC3a exDocC3b).palettes = false :=
  ⟨by decide, equal_palette_lengths_never_flag exDocC3a exDocC3b (by decide)⟩

/-- C4: per-frame cel and image comparison is performed only when the
`totalFrames` flag is already set; when the total frame counts are
equal, the `totalFrames` flag is never set, so the `cels` and `images`
flags remain false for the whole comparison. -/
theorem equal_frame_counts_no_cel_flags (a b : Doc)
    (h : a.sprite.totalFrames = b.sprite.totalFrames) :
    (compare_docs a b).totalFrames = false ∧
    (compare_docs a b).cels = false ∧
    (compare_docs a b).images = false := by
  have htf : totalFramesB a b = false := by simp [totalFramesB, h]
  refine ⟨?_, ?_, ?_⟩
  · rw [compare_docs_totalFrames]; exact htf
  · rw [compare_docs_cels, htf]; simp [celsB]
  · rw [compare_docs_images, htf]; simp [imagesB]

/-- Example document for C4: one frame, and a cel with an image at
frame 0. -/
def exDocC4a : Doc :=
  ⟨{ exSpriteBase with layers := [{ exLayerPlain with
      cels := fun f => if f = 0 then
        some ⟨0, ⟨0, 0, 1, 1⟩, 255, some ⟨1, 1, [5]⟩⟩ else none }] }⟩

/-- Example document for C4: one frame and no cels at all — its cel data
differs from `exDocC4a` at frame 0. -/
def exDocC4b : Doc :=
  ⟨exSpriteBase⟩

/-- Witness for C4 at concrete documents with equal frame counts and
differing cel data. -/
theorem equal_frame_counts_no_cel_flags_witness :
    exDocC4a.sprite.totalFrames = exDocC4b.sprite.totalFrames ∧
    ((compare_docs exDocC4a exDocC4b).totalFrames = false ∧
     (compare_docs exDocC4a exDocC4b).cels = false ∧
     (compare_docs exDocC4a exDocC4b).images = false) :=
  ⟨by decide, equal_frame_counts_no_cel_flags exDocC4a exDocC4b (by decide)⟩

/-- C10: when the palette lists have different lengths but every
pairwise-compared palette pair (up to the shorter list) has zero
differing entries, the `palettes` flag stays false — a palette-list
length difference alone never sets `palettes`. -/
theorem palette_length_diff_alone_never_flags (a b : Doc)
    (hlen : a.sprite.palettes.length ≠ b.sprite.palettes.length)
    (hzero : ∀ p ∈ a.sprite.palettes.zip b.sprite.palettes, p.1.countDiff p.2 = 0) :
    (compare_docs a b).palettes = false := by
  rw [compare_docs_palettes]
  unfold palettesB
  rw [if_pos hlen, List.any_eq_false]
  intro p hp
  simp [hzero p hp]

/-- Example document for C10: one palette. -/
def exDocC10a : Doc :=
  ⟨{ exSpriteBase with palettes := [⟨[1, 2]⟩] }⟩

/-- Example document for C10: two palettes, the first identical to the
palette of `exDocC10a`. -/
def exDocC10b : Doc :=
  ⟨{ exSpriteBase with palettes := [⟨[1, 2]⟩, ⟨[9]⟩] }⟩

/-- Witness for C10 at concrete documents whose palette lists differ in
length while all compared pairs are identical. -/
theorem palette_length_diff_alone_never_flags_witness :
    exDocC10a.sprite.palettes.length ≠ exDocC10b.sprite.palettes.length ∧
    (compare_docs exDocC10a exDocC10b).palettes = false :=
  ⟨by decide, palette_length_diff_alone_never_flags exDocC10a exDocC10b
    (by decide) (by decide)⟩

/-- Example cel with no image, at frame 0. -/
def exCelA : Cel := ⟨0, ⟨0, 0, 1, 1⟩, 255, none⟩

/-- Example cel with the same frame index as `exCelA` but different
bounds and opacity. -/
def exCelB : Cel := ⟨0, ⟨2, 3, 1, 1⟩, 128, none⟩

/-- Example layer carrying `exCelA` at frame 0. -/
def exLayerC6a : Layer :=
  { exLayerPlain with cels := fun f => if f = 0 then some exCelA else none }

/-- C6: during per-frame cel comparison, a cel on exactly one side sets
the `cels` flag; when both sides have a cel the flag is set exactly when
the two cels' frame index, bounds, or opacity are pairwise EQUAL (the
source tests equality, not inequality); and the scan continues over all
frames (a satisfied condition at any frame below the bound flags `cels`,
regardless of position). -/
theorem cel_pair_flag_rule (c c' : Cel) (d : DocDiff) (x y : Layer) (n f : Nat) :
    (compareCelPair (some c) none d).cels = true ∧
    (compareCelPair none (some c) d).cels = true ∧
    ((compareCelPair (some c) (some c') d).cels =
      (d.cels ||
        decide (c.frame = c'.frame ∨ c.bounds = c'.bounds ∨ c.opacity = c'.opacity))) ∧
    (f < n → celsCond (x.cels f) (y.cels f) = true →
      (compareCels x y n d).cels = true) := by
  refine ⟨?_, ?_, ?_, ?_⟩
  · rw [compareCelPair_eq]; simp [celsCond]
  · rw [compareCelPair_eq]; simp [celsCond]
  · rw [compareCelPair_eq]; simp [celsCond]
  · intro hf hcond
    rw [compareCels_eq]
    have h : (List.range n).any (fun g => celsCond (x.cels g) (y.cels g)) = true :=
      List.any_eq_true.mpr ⟨f, List.mem_range.mpr hf, hcond⟩
    simp [h]

/-- Witness for C6 at concrete cels and layers. -/
theorem cel_pair_flag_rule_witness :
    (compareCelPair (some exCelA) none DocDiff.init).cels = true ∧
    (compareCelPair none (some exCelA) DocDiff.init).cels = true ∧
    ((compareCelPair (some exCelA) (some exCelB) DocDiff.init).cels =
      (DocDiff.init.cels ||
        decide (exCelA.frame = exCelB.frame ∨ exCelA.bounds = exCelB.bounds ∨
          exCelA.opacity = exCelB.opacity))) ∧
    (0 < 1 ∧ celsCond (exLayerC6a.cels 0) (exLayerPlain.cels 0) = true ∧
      (compareCels exLayerC6a exLayerPlain 1 DocDiff.init).cels = true) := by
  obtain ⟨h1, h2, h3, h4⟩ :=
    cel_pair_flag_rule exCelA exCelB DocDiff.init exLayerC6a exLayerPlain 1 0
  exact ⟨h1, h2, h3, by decide, by decide, h4 (by decide) (by decide)⟩

/-- C7: if the flattened layer counts differ, `layers` is set and the
`cels` and `images` flags are never set; if the counts are equal,
`layers` is set exactly when some positional layer pair differs in type
tag, name, persistent flag bits, image opacity or tilemap tileset index;
and on a differing pair the layer loop stops at once — the remaining
layer pairs and all cels are never examined (they do not occur in the
result). -/
theorem layer_mismatch_short_circuit (a b : Doc) :
    (a.sprite.layers.length ≠ b.sprite.layers.length →
      (compare_docs a b).layers = true ∧ (compare_docs a b).cels = false ∧
      (compare_docs a b).images = false) ∧
    (a.sprite.layers.length = b.sprite.layers.length →
      ((compare_docs a b).layers = true ↔
        (a.sprite.layers.zip b.sprite.layers).any
          (fun p => layerPairDiff p.1 p.2) = true)) ∧
    (∀ (x y : Layer) (xs ys : List Layer) (n : Nat) (d : DocDiff),
      layerPairDiff x y = true →
      compareLayersLoop n (x :: xs) (y :: ys) d =
        { d with anything := true, layers := true }) := by
  refine ⟨?_, ?_, ?_⟩
  · intro h
    refine ⟨?_, ?_, ?_⟩
    · rw [compare_docs_layers]; simp [layersB, h]
    · rw [compare_docs_cels]; simp [celsB, celScanPairs, h]
    · rw [compare_docs_images]; simp [imagesB, celScanPairs, h]
  · intro h
    rw [compare_docs_layers]
    simp [layersB, h]
  · intro x y xs ys n d hp
    simp [compareLayersLoop, hp]

/-- Example layer differing from `exLayerPlain` only in its name. -/
def exLayerFg : Layer :=
  { exLayerPlain with name := "fg" }

/-- Example document for C7: two layers, two frames, a cel present at
frame 1 (pixel data the comparison must never reach). -/
def exDocC7a : Doc :=
  ⟨{ exSpriteBase with
      frameDurations := [100, 100],
      layers := [exLayerC6a, exLayerPlain] }⟩

/-- Example document for C7: a single layer, one frame. -/
def exDocC7b : Doc :=
  ⟨exSpriteBase⟩

/-- Example document for C7: one plain layer. -/
def exDocC7c : Doc :=
  ⟨exSpriteBase⟩

/-- Example document for C7: one layer differing in name. -/
def exDocC7d : Doc :=
  ⟨{ exSpriteBase with layers := [exLayerFg] }⟩

/-- Witness for C7 at concrete documents and layers. -/
theorem layer_mismatch_short_circuit_witness :
    (exDocC7a.sprite.layers.length ≠ exDocC7b.sprite.layers.length ∧
      (compare_docs exDocC7a exDocC7b).layers = true ∧
      (compare_docs exDocC7a exDocC7b).cels = false ∧
      (compare_docs exDocC7a exDocC7b).images = false) ∧
    (exDocC7c.sprite.layers.length = exDocC7d.sprite.layers.length ∧
      ((compare_docs exDocC7c exDocC7d).layers = true ↔
        (exDocC7c.sprite.layers.zip exDocC7d.sprite.layers).any
          (fun p => layerPairDiff p.1 p.2) = true)) ∧
    (layerPairDiff exLayerPlain exLayerFg = true ∧
      compareLayersLoop 1 [exLayerPlain] [exLayerFg] DocDiff.init =
        { DocDiff.init with anything := true, layers := true }) := by
  refine ⟨⟨by decide, (layer_mismatch_short_circuit exDocC7a exDocC7b).1 (by decide)⟩,
    ⟨by decide, (layer_mismatch_short_circuit exDocC7c exDocC7d).2.1 (by decide)⟩,
    by decide,
    (layer_mismatch_short_circuit exDocC7c exDocC7d).2.2
      exLayerPlain exLayerFg [] [] 1 DocDiff.init (by decide)⟩

theorem tilesetsLoop_eq_any (xs ys : List Tileset) :
    tilesetsLoop xs ys = (xs.zip ys).any (fun p => tilesetPairDiff p.1 p.2) := by
  induction xs generalizing ys with
  | nil => cases ys <;> simp [tilesetsLoop]
  | cons x xs ih =>
    cases ys with
    | nil => simp [tilesetsLoop]
    | cons y ys =>
      by_cases h : x.tileWidth ≠ y.tileWidth ∨ x.tileHeight ≠ y.tileHeight ∨
          x.tiles.length ≠ y.tiles.length
      · simp [tilesetsLoop, tilesetPairDiff, h]
      · cases h2 : (x.tiles.zip y.tiles).any (fun p => !is_same_image p.1 p.2) <;>
          simp [tilesetsLoop, tilesetPairDiff, h, h2, ih]

/-- C8: if the tileset counts differ, `tilesets` is set; with equal
counts, `tilesets` is set exactly when some positional tileset pair has
a tile-size or tile-count mismatch or a tile image pair that is not
pixel-identical; and any such mismatch at the head pair makes the whole
loop exit true regardless of all remaining tilesets (the single shared
exit). -/
theorem tileset_dimension_rule (a b : Doc) :
    (a.sprite.tilesets.length ≠ b.sprite.tilesets.length →
      (compare_docs a b).tilesets = true) ∧
    (a.sprite.tilesets.length = b.sprite.tilesets.length →
      ((compare_docs a b).tilesets = true ↔
        (a.sprite.tilesets.zip b.sprite.tilesets).any
          (fun p => tilesetPairDiff p.1 p.2) = true)) ∧
    (∀ (x y : Tileset) (xs ys : List Tileset), tilesetPairDiff x y = true →
      tilesetsLoop (x :: xs) (y :: ys) = true) := by
  refine ⟨?_, ?_, ?_⟩
  · intro h; rw [compare_docs_tilesets]; simp [tilesetsB, h]
  · intro h; rw [compare_docs_tilesets]; simp [tilesetsB, h, tilesetsLoop_eq_any]
  · intro x y xs ys hp
    rw [tilesetsLoop_eq_any]
    simp [hp]

/-- Example tile image. -/
def exTile1 : Image := ⟨1, 1, [0]⟩

/-- Example tile image with different pixel content. -/
def exTile2 : Image := ⟨1, 1, [7]⟩

/-- Example tileset containing `exTile1`. -/
def exTilesetA : Tileset := ⟨2, 2, [exTile1]⟩

/-- Example tileset with the same tile size and count as `exTilesetA`
but a different tile image. -/
def exTilesetB : Tileset := ⟨2, 2, [exTile2]⟩

/-- Example document for C8: one tileset. -/
def exDocC8a : Doc :=
  ⟨{ exSpriteBase with tilesets := [exTilesetA] }⟩

/-- Example document for C8: no tilesets. -/
def exDocC8b : Doc :=
  ⟨exSpriteBase⟩

/-- Example document for C8: one tileset whose single tile differs from
the tile of `exDocC8a` only in pixel content. -/
def exDocC8c : Doc :=
  ⟨{ exSpriteBase with tilesets := [exTilesetB] }⟩

/-- Witness for C8 at concrete documents and tilesets. -/
theorem tileset_dimension_rule_witness :
    (exDocC8a.sprite.tilesets.length ≠ exDocC8b.sprite.tilesets.length ∧
      (compare_docs exDocC8a exDocC8b).tilesets = true) ∧
    (exDocC8a.sprite.tilesets.length = exDocC8c.sprite.tilesets.length ∧
      ((compare_docs exDocC8a exDocC8c).tilesets = true ↔
        (exDocC8a.sprite.tilesets.zip exDocC8c.sprite.tilesets).any
          (fun p => tilesetPairDiff p.1 p.2) = true)) ∧
    (tilesetPairDiff exTilesetA exTilesetB = true ∧
      tilesetsLoop [exTilesetA] [exTilesetB] = true) := by
  refine ⟨⟨by decide, (tileset_dimension_rule exDocC8a exDocC8b).1 (by decide)⟩,
    ⟨by decide, (tileset_dimension_rule exDocC8a exDocC8c).2.1 (by decide)⟩,
    by decide,
    (tileset_dimension_rule exDocC8a exDocC8c).2.2
      exTilesetA exTilesetB [] [] (by decide)⟩

/-- C9: if the two documents' total frame counts differ, `totalFrames`
is set and the duration scan never runs; with equal counts,
`totalFrames` stays false and `frameDuration` is set exactly when some
frame below the count has differing durations; consequently
`totalFrames` and `frameDuration` are never both set in one comparison. -/
theorem frame_dimension_rule (a b : Doc) :
    (a.sprite.totalFrames ≠ b.sprite.totalFrames →
      (compare_docs a b).totalFrames = true ∧
      (compare_docs a b).frameDuration = false) ∧
    (a.sprite.totalFrames = b.sprite.totalFrames →
      (compare_docs a b).totalFrames = false ∧
      ((compare_docs a b).frameDuration = true ↔
        ∃ f < a.sprite.totalFrames,
          a.sprite.frameDuration f ≠ b.sprite.frameDuration f)) ∧
    ¬((compare_docs a b).totalFrames = true ∧
      (compare_docs a b).frameDuration = true) := by
  refine ⟨?_, ?_, ?_⟩
  · intro h
    constructor
    · rw [compare_docs_totalFrames]; simp [totalFramesB, h]
    · rw [compare_docs_frameDuration]; simp [frameDurationB, totalFramesB, h]
  · intro h
    constructor
    · rw [compare_docs_totalFrames]; simp [totalFramesB, h]
    · rw [compare_docs_frameDuration]
      simp [frameDurationB, totalFramesB, h, List.any_eq_true, List.mem_range]
  · rintro ⟨h1, h2⟩
    rw [compare_docs_totalFrames] at h1
    rw [compare_docs_frameDuration] at h2
    simp [frameDurationB, h1] at h2

/-- Example document for C9: two frames. -/
def exDocC9a : Doc :=
  ⟨{ exSpriteBase with frameDurations := [100, 100] }⟩

/-- Example document for C9: one frame of duration 200. -/
def exDocC9d : Doc :=
  ⟨{ exSpriteBase with frameDurations := [200] }⟩

/-- Witness for C9 at concrete documents: differing counts on one pair,
equal counts with a differing duration on the other. -/
theorem frame_dimension_rule_witness :
    (exDocC9a.sprite.totalFrames ≠ exDocC7b.sprite.totalFrames ∧
      (compare_docs exDocC9a exDocC7b).totalFrames = true ∧
      (compare_docs exDocC9a exDocC7b).frameDuration = false) ∧
    (exDocC7b.sprite.totalFrames = exDocC9d.sprite.totalFrames ∧
      (compare_docs exDocC7b exDocC9d).totalFrames = false ∧
      ((compare_docs exDocC7b exDocC9d).frameDuration = true ↔
        ∃ f < exDocC7b.sprite.totalFrames,
          exDocC7b.sprite.frameDuration f ≠ exDocC9d.sprite.frameDuration f)) := by
  refine ⟨⟨by decide, (frame_dimension_rule exDocC9a exDocC7b).1 (by decide)⟩,
    ⟨by decide, (frame_dimension_rule exDocC7b exDocC9d).2.1 (by decide)⟩⟩

/-- Follows the spec's words (§4.6): the per-frame cel/image comparison
runs "for each frame index up to the shorter document's total frame
count". Identical to `compareLayers` except that the cel-loop bound is
the minimum of the two totals instead of document `a` alone. -/
def compareLayersShorterSpec (a b : Doc) (d : DocDiff) : DocDiff :=
  if a.sprite.layers.length ≠ b.sprite.layers.length then
    { d with anything := true, layers := true }
  else
    compareLayersLoop (min a.sprite.totalFrames b.sprite.totalFrames)
      a.sprite.layers b.sprite.layers d

/-- The full comparison as described by the spec's words for C5: same
pipeline as `compare_docs`, with the shorter-bound cel scan. -/
def compare_docs_shorterSpec (a b : Doc) : DocDiff :=
  compareGridBounds a b (compareColorSpaces a b (compareLayersShorterSpec a b
    (compareTilesets a b (comparePalettes a b (compareTags a b
      (compareFrames a b (compareCanvas a b DocDiff.init)))))))

/-- Example document for C5: two frames, one layer whose only cel sits
at frame 1 — beyond the other document's single frame. -/
def exDocC5a : Doc :=
  ⟨{ exSpriteBase with
      frameDurations := [100, 100],
      layers := [{ exLayerPlain with
        cels := fun f => if f = 1 then some ⟨1, ⟨0, 0, 1, 1⟩, 255, none⟩
          else none }] }⟩

/-- Example document for C5: one frame, one layer with no cels. -/
def exDocC5b : Doc :=
  ⟨exSpriteBase⟩

/-- Counterexample to C5 as stated: on these documents the shorter
document has 1 frame, yet `compare_docs` examines frame index 1 (the
first document's bound) and flags `cels`, while the scan described by
the spec's words (bounded by the shorter count) does not. -/
theorem cel_scan_shorter_bound_counterexample :
    compare_docs exDocC5a exDocC5b ≠ compare_docs_shorterSpec exDocC5a exDocC5b ∧
    min exDocC5a.sprite.totalFrames exDocC5b.sprite.totalFrames = 1 ∧
    (compare_docs exDocC5a exDocC5b).cels = true ∧
    (compare_docs_shorterSpec exDocC5a exDocC5b).cels = false := by
  decide

/-- Replace a layer's per-frame cel lookup by one that is blank at every
frame index at or beyond `n`. -/
def truncCels (n : Nat) (l : Layer) : Layer :=
  { l with cels := fun f => if f < n then l.cels f else none }

/-- Blank out, in every layer of the document, all cels at frame indices
at or beyond `n`. -/
def truncDoc (n : Nat) (a : Doc) : Doc :=
  ⟨{ a.sprite with layers := a.sprite.layers.map (truncCels n) }⟩

theorem truncCels_pairDiff (n : Nat) (x y : Layer) :
    layerPairDiff (truncCels n x) (truncCels n y) = layerPairDiff x y := by
  simp [truncCels, layerPairDiff, Layer.isImage, Layer.isTilemap]

theorem any_congr_of_mem {α : Type} (l : List α) (f g : α → Bool)
    (h : ∀ x ∈ l, f x = g x) : l.any f = l.any g := by
  induction l with
  | nil => rfl
  | cons x xs ih =>
    simp only [List.any_cons]
    rw [h x (List.mem_cons_self x xs), ih (fun y hy => h y (List.mem_cons_of_mem x hy))]

theorem celScanPairs_trunc (a b : Doc) (n : Nat) :
    celScanPairs (truncDoc n a) (truncDoc n b) =
      (celScanPairs a b).map (Prod.map (truncCels n) (truncCels n)) := by
  unfold celScanPairs truncDoc
  by_cases h : a.sprite.layers.length ≠ b.sprite.layers.length
  · simp [h]
  · have hfun : ((fun p : Layer × Layer => !layerPairDiff p.1 p.2) ∘
        Prod.map (truncCels n) (truncCels n)) =
        (fun p : Layer × Layer => !layerPairDiff p.1 p.2) := by
      funext p
      simp [Function.comp, Prod.map, truncCels_pairDiff]
    simp only [List.length_map, if_neg h, List.zip_map, List.takeWhile_map, hfun]

theorem celsB_trunc (a b : Doc) (tf : Bool) :
    celsB (truncDoc a.sprite.totalFrames a) (truncDoc a.sprite.totalFrames b) tf =
      celsB a b tf := by
  unfold celsB
  cases tf
  · simp
  · simp only [Bool.true_and]
    have hn : (truncDoc a.sprite.totalFrames a).sprite.totalFrames =
        a.sprite.totalFrames := rfl
    rw [hn, celScanPairs_trunc, List.any_map]
    apply any_congr_of_mem
    intro p hp
    apply any_congr_of_mem
    intro f hf
    rw [List.mem_range] at hf
    simp [Prod.map, truncCels, hf]

theorem imagesB_trunc (a b : Doc) (tf : Bool) :
    imagesB (truncDoc a.sprite.totalFrames a) (truncDoc a.sprite.totalFrames b) tf =
      imagesB a b tf := by
  unfold imagesB
  cases tf
  · simp
  · simp only [Bool.true_and]
    have hn : (truncDoc a.sprite.totalFrames a).sprite.totalFrames =
        a.sprite.totalFrames := rfl
    rw [hn, celScanPairs_trunc, List.any_map]
    apply any_congr_of_mem
    intro p hp
    apply any_congr_of_mem
    intro f hf
    rw [List.mem_range] at hf
    simp [Prod.map, truncCels, hf]

theorem layersB_trunc (a b : Doc) (n : Nat) :
    layersB (truncDoc n a) (truncDoc n b) = layersB a b := by
  unfold layersB truncDoc
  by_cases h : a.sprite.layers.length ≠ b.sprite.layers.length
  · simp [h]
  · simp only [List.length_map, if_neg h, List.zip_map]
    rw [List.any_map]
    apply any_congr_of_mem
    intro p hp
    simp [Prod.map, truncCels_pairDiff]

/-- C5, amended: whenever cel/image comparison is performed, cels are
fetched and compared for each frame index up to the FIRST document's
total frame count (not the shorter one); accordingly, blanking out all
cel data at frame indices at or beyond the first document's count — in
either document — never changes the comparison result. -/
theorem cel_scan_bounded_by_first_doc_frames (a b : Doc) :
    compare_docs a b =
      compare_docs (truncDoc a.sprite.totalFrames a)
        (truncDoc a.sprite.totalFrames b) := by
  rw [compare_docs_eq, compare_docs_eq]
  have h1 : canvasB (truncDoc a.sprite.totalFrames a)
      (truncDoc a.sprite.totalFrames b) = canvasB a b := rfl
  have h2 : totalFramesB (truncDoc a.sprite.totalFrames a)
      (truncDoc a.sprite.totalFrames b) = totalFramesB a b := rfl
  have h3 : frameDurationB (truncDoc a.sprite.totalFrames a)
      (truncDoc a.sprite.totalFrames b) = frameDurationB a b := rfl
  have h4 : tagsB (truncDoc a.sprite.totalFrames a)
      (truncDoc a.sprite.totalFrames b) = tagsB a b := rfl
  have h5 : palettesB (truncDoc a.sprite.totalFrames a)
      (truncDoc a.sprite.totalFrames b) = palettesB a b := rfl
  have h6 : tilesetsB (truncDoc a.sprite.totalFrames a)
      (truncDoc a.sprite.totalFrames b) = tilesetsB a b := rfl
  have h7 : colorProfilesB (truncDoc a.sprite.totalFrames a)
      (truncDoc a.sprite.totalFrames b) = colorProfilesB a b := rfl
  have h8 : gridBoundsB (truncDoc a.sprite.totalFrames a)
      (truncDoc a.sprite.totalFrames b) = gridBoundsB a b := rfl
  rw [h1, h2, h3, h4, h5, h6, h7, h8, layersB_trunc, celsB_trunc, imagesB_trunc]
